import Mathlib

/-!
Verification of the meal repository (`SQLAlchemyMealRepository` in
`backend/infrastructure/sqlalchemy/repositories/meal.py`).

The database is embedded as an explicit state: a list of school-info rows,
a list of meal rows, and the next primary key the database would assign to
an inserted meal row.  Each repository method becomes a function from the
database state to a result paired with the resulting database state; a
query that SQLAlchemy would abort with `MultipleResultsFound` (from
`scalar_one_or_none`, or a scalar subquery returning several rows) is
modelled as an `Except.error`, in which case the enclosing transaction
rolls back and the state is returned unchanged.
-/

namespace MealRepo

/-- Modelled from the spec: the persisted school-info row shape
(`SchoolInfoSchema`, defined outside this file) — an integer primary key
and the identifying pair `(edu_office_code, standard_school_code)`. -/
structure SchoolInfoRow where
  id : Nat
  edu_office_code : String
  standard_school_code : String
deriving DecidableEq

/-- Modelled from the spec: the persisted meal row shape (`MealSchema`,
defined outside this file) — integer primary key, foreign key to its
school-info row, and the attributes `name`, `dish_name`, `calorie`,
`date`, `comments`.  Dates are modelled as naturals, comment rows by
their identifiers. -/
structure MealRow where
  id : Nat
  school_info_id : Nat
  name : String
  dish_name : String
  calorie : String
  date : Nat
  comments : List Nat
deriving DecidableEq

/-- Modelled from the spec: the domain entity `Meal` with attributes
`name`, `dish_name`, `calorie`, `date`, `comments`; the storage id is not
part of the entity. -/
structure Meal where
  name : String
  dish_name : String
  calorie : String
  date : Nat
  comments : List Nat
deriving DecidableEq

/-- The database state seen by the repository: all school-info rows, all
meal rows, and the primary key the database will assign to the next
inserted meal row. -/
structure DB where
  schools : List SchoolInfoRow
  meals : List MealRow
  next_meal_id : Nat
deriving DecidableEq

/-- The database error raised by `scalar_one_or_none` (and by a scalar
subquery) when the result has more than one row. -/
inductive DBError
  | MultipleResultsFound
deriving DecidableEq

/-- `CreateMealStatus` from `backend.domain.enum`: the sentinel returned
when the referenced school does not exist. -/
inductive CreateMealStatus
  | SCHOOL_INFO_NOT_FOUND
deriving DecidableEq

/-- The Python return type `CreateMealStatus | int` of `create_by_code`. -/
inductive CreateMealResult
  | status : CreateMealStatus → CreateMealResult
  | newId : Nat → CreateMealResult
deriving DecidableEq

/-- SQLAlchemy `Result.scalar_one_or_none`: `none` on an empty result,
the value on a one-row result, `MultipleResultsFound` otherwise. -/
def scalar_one_or_none : List α → Except DBError (Option α)
  | [] => .ok none
  | [a] => .ok (some a)
  | _ :: _ :: _ => .error .MultipleResultsFound

/-- Modelled from the spec: the schema layer's `to_entity()` conversion
(defined outside this file) maps a persisted meal row to the domain
entity carrying the same `name`, `dish_name`, `calorie`, `date` and
`comments`. -/
def MealRow.to_entity (m : MealRow) : Meal :=
  { name := m.name
    dish_name := m.dish_name
    calorie := m.calorie
    date := m.date
    comments := m.comments }

/-- The `select(SchoolInfoSchema).where(...)` query: every school-info row
whose `edu_office_code` and `standard_school_code` both match. -/
def selectSchools (db : DB) (ec sc : String) : List SchoolInfoRow :=
  db.schools.filter fun s => s.edu_office_code == ec && s.standard_school_code == sc

/-- The `selectinload(SchoolInfoSchema.meals.and_(MealSchema.date == date))`
relationship load: the meal rows belonging to the school with id `sid`
whose date matches. -/
def schoolMealsOn (db : DB) (sid : Nat) (d : Nat) : List MealRow :=
  db.meals.filter fun m => m.school_info_id == sid && m.date == d

/-- `_get_schema_by_code`: the matching schools' date-filtered meal rows,
flattened school by school (the nested list comprehension). -/
def get_schema_by_code (db : DB) (ec sc : String) (d : Nat) : List MealRow :=
  (selectSchools db ec sc).flatMap fun s => schoolMealsOn db s.id d

/-- `get_by_code`: `_get_schema_by_code` mapped through `to_entity`.  The
select mutates nothing, so the state component is the input state. -/
def get_by_code (db : DB) (ec sc : String) (d : Nat) :
    Except DBError (List Meal) × DB :=
  (.ok ((get_schema_by_code db ec sc d).map MealRow.to_entity), db)

/-- `get_by_id`: primary-key lookup through `scalar_one_or_none`, the hit
converted by `to_entity`. -/
def get_by_id (db : DB) (meal_id : Nat) : Except DBError (Option Meal) × DB :=
  ((scalar_one_or_none (db.meals.filter fun m => m.id == meal_id)).map
      (fun r => r.map MealRow.to_entity), db)

/-- `get_with_id_by_code`: `_get_schema_by_code` keeping each row's id
alongside its entity. -/
def get_with_id_by_code (db : DB) (ec sc : String) (d : Nat) :
    Except DBError (List (Nat × Meal)) × DB :=
  (.ok ((get_schema_by_code db ec sc d).map fun r => (r.id, r.to_entity)), db)

/-- `get_id_by_code`: the scalar subquery resolves the school-info id
(`none` when no school matches, so the comparison with NULL selects no
row; an error when several match), then `scalar_one_or_none` over the
ids of the meal rows matching school, date and name. -/
def get_id_by_code (db : DB) (ec sc : String) (d : Nat) (meal_name : String) :
    Except DBError (Option Nat) × DB :=
  ((match scalar_one_or_none ((selectSchools db ec sc).map (·.id)) with
    | .error e => .error e
    | .ok none => .ok none
    | .ok (some sid) =>
        scalar_one_or_none
          ((db.meals.filter fun m =>
              m.school_info_id == sid && m.date == d && m.name == meal_name).map (·.id))),
   db)

/-- The `MealSchema(...)` row constructed by `create_by_code`: the id the
database assigns at commit, the resolved school-info id, the input meal's
attributes, and an empty comments collection. -/
def newMealRow (db : DB) (sid : Nat) (meal : Meal) : MealRow :=
  { id := db.next_meal_id
    school_info_id := sid
    name := meal.name
    dish_name := meal.dish_name
    calorie := meal.calorie
    date := meal.date
    comments := [] }

/-- `create_by_code`: resolve the school-info id with
`scalar_one_or_none`; on `none` return the sentinel with the state
untouched; otherwise add the new row, commit, and return its id.  A
multi-row school result raises, rolling the transaction back. -/
def create_by_code (db : DB) (ec sc : String) (meal : Meal) :
    Except DBError CreateMealResult × DB :=
  match scalar_one_or_none ((selectSchools db ec sc).map (·.id)) with
  | .error e => (.error e, db)
  | .ok none => (.ok (.status .SCHOOL_INFO_NOT_FOUND), db)
  | .ok (some sid) =>
      (.ok (.newId (newMealRow db sid meal).id),
       { db with
           meals := db.meals ++ [newMealRow db sid meal]
           next_meal_id := db.next_meal_id + 1 })

instance exceptDecEq [DecidableEq ε] [DecidableEq α] : DecidableEq (Except ε α) := fun x y =>
  match x, y with
  | .error a, .error b =>
      if h : a = b then .isTrue (by rw [h]) else .isFalse (fun hc => h (Except.error.inj hc))
  | .error _, .ok _ => .isFalse Except.noConfusion
  | .ok _, .error _ => .isFalse Except.noConfusion
  | .ok a, .ok b =>
      if h : a = b then .isTrue (by rw [h]) else .isFalse (fun hc => h (Except.ok.inj hc))

/-- A sample school-info row, used by the concrete witnesses below. -/
def school1 : SchoolInfoRow := ⟨1, "E1", "S1"⟩

/-- A second school-info row carrying the same code pair as `school1`. -/
def school2 : SchoolInfoRow := ⟨2, "E1", "S1"⟩

/-- A sample input meal; its comments collection is nonempty on purpose. -/
def meal0 : Meal := ⟨"중식", "쌀밥", "500 kcal", 7, [3]⟩

/-- A persisted lunch row of `school1` on date 7. -/
def mrow1 : MealRow := ⟨10, 1, "중식", "쌀밥", "500 kcal", 7, []⟩

/-- A second persisted lunch row of `school1` on the same date 7. -/
def mrow2 : MealRow := ⟨11, 1, "중식", "국", "400 kcal", 7, []⟩

/-- The empty database. -/
def dbEmpty : DB := ⟨[], [], 0⟩

/-- One school, one lunch row. -/
def dbOne : DB := ⟨[school1], [mrow1], 20⟩

/-- One school, two lunch rows on the same date with the same name. -/
def dbDup : DB := ⟨[school1], [mrow1, mrow2], 20⟩

/-- Two school rows sharing the code pair, one meal row. -/
def dbTwoSchools : DB := ⟨[school1, school2], [mrow1], 20⟩

/-- C1: when no school-info row matches the code pair, `create_by_code`
returns the `SCHOOL_INFO_NOT_FOUND` sentinel (it does not raise) and the
database state is unchanged: no meal row is constructed or persisted. -/
theorem create_by_code_unknown_school (db : DB) (ec sc : String) (meal : Meal)
    (h : selectSchools db ec sc = []) :
    create_by_code db ec sc meal = (.ok (.status .SCHOOL_INFO_NOT_FOUND), db) := by
  unfold create_by_code
  rw [h]
  rfl

theorem create_by_code_unknown_school_witness :
    create_by_code dbEmpty "E1" "S1" meal0 =
      (.ok (.status .SCHOOL_INFO_NOT_FOUND), dbEmpty) :=
  create_by_code_unknown_school dbEmpty "E1" "S1" meal0 rfl

/-- C2: when exactly one school-info row matches the code pair,
`create_by_code` appends exactly one new meal row (all other rows and the
school table unchanged) and returns the id newly assigned to that row. -/
theorem create_by_code_known_school (db : DB) (ec sc : String) (meal : Meal)
    (s : SchoolInfoRow) (h : selectSchools db ec sc = [s]) :
    ∃ row : MealRow, ∃ db2 : DB,
      create_by_code db ec sc meal = (.ok (.newId row.id), db2) ∧
      db2.meals = db.meals ++ [row] ∧
      db2.schools = db.schools ∧
      row.id = db.next_meal_id := by
  refine ⟨newMealRow db s.id meal,
    { db with
        meals := db.meals ++ [newMealRow db s.id meal]
        next_meal_id := db.next_meal_id + 1 },
    ?_, rfl, rfl, rfl⟩
  unfold create_by_code
  rw [h]
  rfl

theorem create_by_code_known_school_witness :
    ∃ row : MealRow, ∃ db2 : DB,
      create_by_code dbOne "E1" "S1" meal0 = (.ok (.newId row.id), db2) ∧
      db2.meals = dbOne.meals ++ [row] ∧
      db2.schools = dbOne.schools ∧
      row.id = dbOne.next_meal_id :=
  create_by_code_known_school dbOne "E1" "S1" meal0 school1 (by decide)

/-- Inversion of a successful `create_by_code`: the returned id is the
next free primary key and the new state appends exactly the constructed
row. -/
theorem create_by_code_ok_inv (db : DB) (ec sc : String) (meal : Meal) (i : Nat) (db2 : DB)
    (h : create_by_code db ec sc meal = (.ok (.newId i), db2)) :
    ∃ sid : Nat, i = db.next_meal_id ∧
      db2 = { db with
                meals := db.meals ++ [newMealRow db sid meal]
                next_meal_id := db.next_meal_id + 1 } := by
  unfold create_by_code at h
  rcases hq : scalar_one_or_none ((selectSchools db ec sc).map (·.id)) with e | _ | sid
  · rw [hq] at h
    simp at h
  · rw [hq] at h
    simp at h
  · rw [hq] at h
    simp only [Prod.mk.injEq, Except.ok.injEq, CreateMealResult.newId.injEq] at h
    obtain ⟨h1, h2⟩ := h
    exact ⟨sid, h1.symm, h2.symm⟩

/-- C7: the row persisted by a successful `create_by_code` has an empty
comments collection, regardless of the comments carried by the input meal
entity. -/
theorem create_by_code_resets_comments (db : DB) (ec sc : String) (meal : Meal)
    (i : Nat) (db2 : DB)
    (h : create_by_code db ec sc meal = (.ok (.newId i), db2)) :
    ∃ row : MealRow, db2.meals = db.meals ++ [row] ∧ row.comments = [] := by
  obtain ⟨sid, _, hdb⟩ := create_by_code_ok_inv db ec sc meal i db2 h
  exact ⟨newMealRow db sid meal, by rw [hdb], rfl⟩

theorem create_by_code_resets_comments_witness :
    ∃ row : MealRow,
      (create_by_code dbOne "E1" "S1" meal0).2.meals = dbOne.meals ++ [row] ∧
      row.comments = [] :=
  create_by_code_resets_comments dbOne "E1" "S1" meal0 20
    (create_by_code dbOne "E1" "S1" meal0).2 (by decide)

/-- C5: when the code pair matches at least one school-info row and no
meal row of any matching school carries the given date, `get_by_code`
returns the empty list (neither an error nor an absent value). -/
theorem get_by_code_no_meals (db : DB) (ec sc : String) (d : Nat)
    (hex : selectSchools db ec sc ≠ [])
    (hno : ∀ s ∈ selectSchools db ec sc, schoolMealsOn db s.id d = []) :
    get_by_code db ec sc d = (.ok [], db) := by
  unfold get_by_code get_schema_by_code
  rw [List.flatMap_eq_nil_iff.mpr hno]
  rfl

theorem get_by_code_no_meals_witness :
    get_by_code dbOne "E1" "S1" 8 = (.ok [], dbOne) :=
  get_by_code_no_meals dbOne "E1" "S1" 8 (by decide) (by decide)

/-- C6: when no meal row carries the requested primary key, `get_by_id`
returns `none` rather than raising. -/
theorem get_by_id_absent (db : DB) (mid : Nat)
    (h : ∀ m ∈ db.meals, m.id ≠ mid) :
    get_by_id db mid = (.ok none, db) := by
  unfold get_by_id
  rw [List.filter_eq_nil_iff.mpr fun m hm => by simpa using h m hm]
  rfl

theorem get_by_id_absent_witness :
    get_by_id dbOne 99 = (.ok none, dbOne) :=
  get_by_id_absent dbOne 99 (by decide)

/-- C8: the four read operations return the database state unchanged: no
meal or school-info row is inserted, updated or deleted by any of them. -/
theorem reads_preserve_db (db : DB) (ec sc : String) (d mid : Nat) (nm : String) :
    (get_by_code db ec sc d).2 = db ∧
    (get_by_id db mid).2 = db ∧
    (get_with_id_by_code db ec sc d).2 = db ∧
    (get_id_by_code db ec sc d nm).2 = db :=
  ⟨rfl, rfl, rfl, rfl⟩

/-- C3: round-trip — when `create_by_code` returns an integer id (the
database having no row with the next free key, as a real autoincrement
column guarantees), `get_by_id` at that id returns an entity whose
`name`, `dish_name`, `calorie` and `date` equal those of the input meal;
comments and id are excluded from the comparison. -/
theorem create_then_get_by_id (db : DB) (ec sc : String) (meal : Meal) (i : Nat) (db2 : DB)
    (hfresh : ∀ m ∈ db.meals, m.id ≠ db.next_meal_id)
    (h : create_by_code db ec sc meal = (.ok (.newId i), db2)) :
    ∃ e : Meal, get_by_id db2 i = (.ok (some e), db2) ∧
      e.name = meal.name ∧ e.dish_name = meal.dish_name ∧
      e.calorie = meal.calorie ∧ e.date = meal.date := by
  obtain ⟨sid, hi, hdb⟩ := create_by_code_ok_inv db ec sc meal i db2 h
  subst hi
  subst hdb
  refine ⟨(newMealRow db sid meal).to_entity, ?_, rfl, rfl, rfl, rfl⟩
  have hold : db.meals.filter (fun m => m.id == db.next_meal_id) = [] := by
    refine List.filter_eq_nil_iff.mpr fun m hm => ?_
    simpa using hfresh m hm
  unfold get_by_id
  simp only [List.filter_append, hold, List.nil_append]
  simp [newMealRow, scalar_one_or_none, Except.map]

theorem create_then_get_by_id_witness :
    ∃ e : Meal,
      get_by_id (create_by_code dbOne "E1" "S1" meal0).2 20 =
        (.ok (some e), (create_by_code dbOne "E1" "S1" meal0).2) ∧
      e.name = meal0.name ∧ e.dish_name = meal0.dish_name ∧
      e.calorie = meal0.calorie ∧ e.date = meal0.date :=
  create_then_get_by_id dbOne "E1" "S1" meal0 20
    (create_by_code dbOne "E1" "S1" meal0).2 (by decide) (by decide)

/-- C9: with a single matching school row, `get_id_by_code` returns
`none` exactly on zero matching meal rows, the row's id exactly on one,
and raises `MultipleResultsFound` on two or more. -/
theorem get_id_by_code_multiplicity (db : DB) (ec sc : String) (d : Nat) (nm : String)
    (s : SchoolInfoRow) (hs : selectSchools db ec sc = [s]) :
    ((db.meals.filter fun m => m.school_info_id == s.id && m.date == d && m.name == nm) = [] →
       (get_id_by_code db ec sc d nm).1 = .ok none) ∧
    (∀ r : MealRow,
       (db.meals.filter fun m => m.school_info_id == s.id && m.date == d && m.name == nm) = [r] →
       (get_id_by_code db ec sc d nm).1 = .ok (some r.id)) ∧
    (2 ≤ (db.meals.filter fun m =>
            m.school_info_id == s.id && m.date == d && m.name == nm).length →
       (get_id_by_code db ec sc d nm).1 = .error .MultipleResultsFound) := by
  refine ⟨?_, ?_, ?_⟩
  · intro h0
    simp [get_id_by_code, hs, h0, scalar_one_or_none]
  · intro r hr
    simp [get_id_by_code, hs, hr, scalar_one_or_none]
  · intro h2
    rcases hl : db.meals.filter
        (fun m => m.school_info_id == s.id && m.date == d && m.name == nm) with
      _ | ⟨a, _ | ⟨b, t⟩⟩
    · rw [hl] at h2
      simp at h2
    · rw [hl] at h2
      simp at h2
    · simp [get_id_by_code, hs, hl, scalar_one_or_none]

theorem get_id_by_code_multiplicity_witness :
    (get_id_by_code dbDup "E1" "S1" 7 "중식").1 = .error .MultipleResultsFound :=
  (get_id_by_code_multiplicity dbDup "E1" "S1" 7 "중식" school1 (by decide)).2.2 (by decide)

/-- C10: when two or more school-info rows match the code pair,
`create_by_code` raises `MultipleResultsFound` and persists nothing (the
transaction rolls back), while `get_by_code` on the same pair returns the
combined date-filtered meals of all matching schools. -/
theorem create_by_code_multi_school (db : DB) (ec sc : String) (meal : Meal) (d : Nat)
    (h2 : 2 ≤ (selectSchools db ec sc).length) :
    create_by_code db ec sc meal = (.error .MultipleResultsFound, db) ∧
    (get_by_code db ec sc d).1 =
      .ok (((selectSchools db ec sc).flatMap fun s => schoolMealsOn db s.id d).map
             MealRow.to_entity) := by
  refine ⟨?_, rfl⟩
  rcases hl : selectSchools db ec sc with _ | ⟨a, _ | ⟨b, t⟩⟩
  · rw [hl] at h2
    simp at h2
  · rw [hl] at h2
    simp at h2
  · unfold create_by_code
    rw [hl]
    rfl

theorem create_by_code_multi_school_witness :
    create_by_code dbTwoSchools "E1" "S1" meal0 =
      (.error .MultipleResultsFound, dbTwoSchools) ∧
    (get_by_code dbTwoSchools "E1" "S1" 7).1 =
      .ok (((selectSchools dbTwoSchools "E1" "S1").flatMap fun s =>
              schoolMealsOn dbTwoSchools s.id 7).map MealRow.to_entity) :=
  create_by_code_multi_school dbTwoSchools "E1" "S1" meal0 7 (by decide)

/-- C4 counterexample: in `dbDup`, `get_with_id_by_code` contains the
entry `(10, lunch)` whose meal name equals the requested name, yet
`get_id_by_code` with that name does not return 10 — it raises
`MultipleResultsFound` because a second row also matches. -/
theorem get_id_by_code_agreement_cex :
    (get_with_id_by_code dbDup "E1" "S1" 7).1 =
      .ok [(10, mrow1.to_entity), (11, mrow2.to_entity)] ∧
    mrow1.to_entity.name = "중식" ∧
    (get_id_by_code dbDup "E1" "S1" 7 "중식").1 ≠ .ok (some 10) ∧
    (get_id_by_code dbDup "E1" "S1" 7 "중식").1 = .error .MultipleResultsFound := by
  refine ⟨by decide, by decide, by decide, by decide⟩

/-- C4 amended: with a single matching school row and exactly one loaded
meal row whose name equals the requested name, `get_id_by_code` returns
precisely the id carried by the corresponding `get_with_id_by_code`
entry. -/
theorem get_id_by_code_agreement (db : DB) (ec sc : String) (d : Nat) (nm : String)
    (s : SchoolInfoRow) (hs : selectSchools db ec sc = [s]) (r : MealRow)
    (hu : (get_schema_by_code db ec sc d).filter (fun m => m.name == nm) = [r]) :
    (r.id, r.to_entity) ∈ ((get_with_id_by_code db ec sc d).1.toOption.getD []) ∧
    r.name = nm ∧
    (get_id_by_code db ec sc d nm).1 = .ok (some r.id) := by
  have hrmem : r ∈ get_schema_by_code db ec sc d :=
    List.mem_of_mem_filter (hu ▸ List.mem_singleton_self r)
  have hrname : r.name = nm := by
    have := List.of_mem_filter (hu ▸ List.mem_singleton_self r)
    simpa using this
  refine ⟨List.mem_map_of_mem (fun m => (m.id, m.to_entity)) hrmem, hrname, ?_⟩
  have h1 : (db.meals.filter fun m =>
      m.school_info_id == s.id && m.date == d).filter (fun m => m.name == nm) = [r] := by
    simpa [get_schema_by_code, hs, schoolMealsOn] using hu
  rw [List.filter_filter] at h1
  have key : db.meals.filter
      (fun m => m.school_info_id == s.id && m.date == d && m.name == nm) = [r] := by
    rw [← h1]
    exact List.filter_congr fun m _ =>
      Bool.and_comm (m.school_info_id == s.id && m.date == d) (m.name == nm)
  simp [get_id_by_code, hs, key, scalar_one_or_none]

theorem get_id_by_code_agreement_witness :
    (mrow1.id, mrow1.to_entity) ∈
      ((get_with_id_by_code dbOne "E1" "S1" 7).1.toOption.getD []) ∧
    mrow1.name = "중식" ∧
    (get_id_by_code dbOne "E1" "S1" 7 "중식").1 = .ok (some mrow1.id) :=
  get_id_by_code_agreement dbOne "E1" "S1" 7 "중식" school1 (by decide) mrow1 (by decide)

end MealRepo
